import Mathlib

/-!
# Verification of the ocean-go condition-aggregation and rule-evaluation engine

Shallow embedding of the TypeScript sources of the `ocean-go` repository:
the shared primitive evaluators (`BaseRules`), the four per-activity
evaluators (snorkeling, kayaking, SUP, fishing), the tide-extrema
derivation and deduplication of the tides provider, the merge and
fallback assembly of `OceanStatusService.getOceanStatus`, and the
TTL response cache of `lib/api-handler.ts`.

Numbers are modeled with `ℚ` (the sources use JS doubles on small,
exactly-representable values), instants with `ℤ` (milliseconds since
epoch; the sources store ISO strings and compare via `Date.getTime()`,
which is an order-isomorphic view of the same instants).
-/

/-- `ActivityStatus` from `api/types/activity.ts`: `"good" | "caution" | "bad"`. -/
inductive ActivityStatus where
  | good
  | caution
  | bad
deriving DecidableEq, Repr, Fintype

/-- Tide event type from `types/index.ts`: `'high' | 'low'`. -/
inductive TideType where
  | high
  | low
deriving DecidableEq, Repr, Fintype

/-- `WeatherData` from `lib/api/types/index.ts`.  Optional upstream fields stay
optional; `timestamp` is the instant in epoch milliseconds. -/
structure WeatherData where
  windSpeed : ℚ
  windDirection : Option ℚ := none
  cloudiness : ℚ
  rain : ℚ
  temperature : Option ℚ := none
  pressure : Option ℚ := none
  humidity : Option ℚ := none
  timestamp : ℤ
deriving DecidableEq, Repr

/-- `TideData` from `lib/api/types/index.ts`. -/
structure TideData where
  type : TideType
  height : ℚ
  time : ℤ
deriving DecidableEq, Repr

/-- `HourlyForecast` from `lib/api/types/index.ts`. -/
structure HourlyForecast where
  time : ℤ
  windSpeed : ℚ
  windDirection : Option ℚ := none
  rain : ℚ
  cloudiness : ℚ
  temperature : Option ℚ := none
  pressure : Option ℚ := none
  humidity : Option ℚ := none
  tideHeight : Option ℚ := none
deriving DecidableEq, Repr

/-- `ActivityThresholds` from `lib/api/types/region.ts`: numeric ceilings plus a
tide preference (`'high' | 'low' | null`). -/
structure ActivityThresholds where
  maxWindSpeed : ℚ
  maxCloudiness : ℚ
  maxRain : ℚ
  preferredTide : Option TideType
deriving DecidableEq, Repr

/-- `RuleContext` from `lib/api/rules/base.rules.ts`. -/
structure RuleContext where
  weather : WeatherData
  tides : List TideData
  hourlyForecast : Option (List HourlyForecast) := none
  thresholds : ActivityThresholds
deriving DecidableEq, Repr

/-- `ActivityRecommendation` from `api/types/activity.ts`. -/
structure ActivityRecommendation where
  status : ActivityStatus
  reason : String
  window : Option String := none
deriving DecidableEq, Repr

/-- `ProviderError` from `lib/api/types/index.ts`. -/
structure ProviderError where
  provider : String
  message : String
  fallbackUsed : Bool
deriving DecidableEq, Repr

/-- Result of a primitive evaluator: `{ status, severity }`. -/
structure Evaluation where
  status : ActivityStatus
  severity : ℚ
deriving DecidableEq, Repr

/-- Result of `BaseRules.evaluateTide`: `{ status, nextPreferredTime? }`. -/
structure TideEvaluation where
  status : ActivityStatus
  nextPreferredTime : Option ℤ := none
deriving DecidableEq, Repr

/-- JS string truthiness of `w || fallback` on `string | undefined` values:
`undefined` and the empty string select the fallback. -/
def jsOrString (w : Option String) (fallback : Option String) : Option String :=
  match w with
  | some s => if s = "" then fallback else some s
  | none => fallback

/-- Model of JS `Number.prototype.toFixed(1)` for the wind speeds that appear in
reason strings (rounded to one decimal, rendered as `d.d`). -/
def toFixed1 (x : ℚ) : String :=
  let n : ℤ := round (x * 10)
  s!"{n / 10}.{(n % 10).natAbs}"

namespace BaseRules

/-- `BaseRules.evaluateWind` (`lib/api/rules/base.rules.ts`):
good iff `windSpeed ≤ maxWindSpeed * 0.7`, caution iff `≤ maxWindSpeed`,
bad otherwise, with the severity ratios of the source. -/
def evaluateWind (windSpeed maxWindSpeed : ℚ) : Evaluation :=
  if windSpeed ≤ maxWindSpeed * 0.7 then
    { status := .good, severity := 0 }
  else if windSpeed ≤ maxWindSpeed then
    { status := .caution
      severity := (windSpeed - maxWindSpeed * 0.7) / (maxWindSpeed * 0.3) }
  else
    { status := .bad, severity := (windSpeed - maxWindSpeed) / maxWindSpeed }

/-- `BaseRules.evaluateCloudiness`: same shape as wind with the `0.6` split. -/
def evaluateCloudiness (cloudiness maxCloudiness : ℚ) : Evaluation :=
  if cloudiness ≤ maxCloudiness * 0.6 then
    { status := .good, severity := 0 }
  else if cloudiness ≤ maxCloudiness then
    { status := .caution
      severity := (cloudiness - maxCloudiness * 0.6) / (maxCloudiness * 0.4) }
  else
    { status := .bad, severity := (cloudiness - maxCloudiness) / maxCloudiness }

/-- `BaseRules.evaluateRain`: good iff exactly zero, caution iff
`rain ≤ maxRain * 0.5`, bad otherwise. -/
def evaluateRain (rain maxRain : ℚ) : Evaluation :=
  if rain = 0 then
    { status := .good, severity := 0 }
  else if rain ≤ maxRain * 0.5 then
    { status := .caution, severity := rain / (maxRain * 0.5) }
  else
    { status := .bad, severity := rain / maxRain }

/-- `BaseRules.evaluateTide` with `now` (the source's `new Date()`) explicit.
`find?` mirrors `Array.prototype.find`: the first element in list order. -/
def evaluateTide (currentTides : List TideData) (preferredTide : Option TideType)
    (now : ℤ) : TideEvaluation :=
  match preferredTide with
  | none => { status := .good }
  | some p =>
    let nextPreferredTide :=
      currentTides.find? (fun tide => tide.type == p && decide (now < tide.time))
    let currentTide :=
      currentTides.find? (fun tide =>
        decide (tide.time ≤ now) && decide (now - 3 * 60 * 60 * 1000 < tide.time))
    if currentTide.map TideData.type = some p then
      { status := .good, nextPreferredTime := nextPreferredTide.map TideData.time }
    else
      match nextPreferredTide with
      | some nt =>
        if ((nt.time - now : ℤ) : ℚ) / (60 * 60 * 1000) ≤ 2 then
          { status := .caution, nextPreferredTime := some nt.time }
        else
          { status := .bad, nextPreferredTime := some nt.time }
      | none => { status := .caution }

/-- JS `x || d` on the numeric thresholds inside `calculateWindow`
(`thresholds?.maxWindSpeed || 10` etc.): `0` is falsy and selects the default. -/
def jsOrNum (x d : ℚ) : ℚ := if x = 0 then d else x

/-- One hour of the `calculateWindow` loop body: all three primitive
evaluations must be non-bad for the hour to count. -/
def windowHourOk (t : ActivityThresholds) (forecast : HourlyForecast) : Bool :=
  let wind := evaluateWind forecast.windSpeed (jsOrNum t.maxWindSpeed 10)
  let clouds := evaluateCloudiness forecast.cloudiness (jsOrNum t.maxCloudiness 100)
  let rain := evaluateRain forecast.rain (jsOrNum t.maxRain 5)
  wind.status ≠ .bad && clouds.status ≠ .bad && rain.status ≠ .bad

/-- Consecutive leading hours satisfying `windowHourOk` (the loop counts until
the first failing hour or the end of the slice). -/
def countGoodHours (t : ActivityThresholds) : List HourlyForecast → Nat
  | [] => 0
  | f :: rest => if windowHourOk t f then countGoodHours t rest + 1 else 0

/-- `BaseRules.calculateWindow`: walks `hourlyForecast[startHours ..]` for at
most `maxHours` entries, counting consecutive non-bad hours, and reports a
window string only when at least 4 were found. -/
def calculateWindow (hourlyForecast : Option (List HourlyForecast))
    (thresholds : ActivityThresholds) (startHours maxHours : Nat) : Option String :=
  match hourlyForecast with
  | none => none
  | some hf =>
    if hf.length = 0 then none
    else
      let goodHours := countGoodHours thresholds ((hf.drop startHours).take maxHours)
      if goodHours ≥ 4 then some s!"Next {goodHours}-{goodHours + 2} hours"
      else none

end BaseRules

/-- Model of `Date.toLocaleTimeString([], { hour: '2-digit', minute: '2-digit' })`
as a 24-hour `HH:MM` rendering of the instant's time of day. -/
def formatHM (t : ℤ) : String :=
  let minutes := (t / 60000) % 1440
  let hh := (minutes / 60).natAbs
  let mm := (minutes % 60).natAbs
  (if hh < 10 then "0" else "") ++ s!"{hh}:" ++ (if mm < 10 then "0" else "") ++ s!"{mm}"

/-- `tideType.charAt(0).toUpperCase() + tideType.slice(1)`. -/
def capitalizeFirst (s : String) : String :=
  match s.data with
  | [] => ""
  | c :: rest => String.mk (c.toUpper :: rest)

/-- The status branches of `evaluateFishing` (`api/rules/fishing.rules.ts`,
lines 25-53): tide-first, wind-secondary, clouds never consulted. -/
def fishingFinalStatus (tideS windS rainS : ActivityStatus) : ActivityStatus :=
  if tideS = .good then
    if windS = .bad then .caution
    else if rainS = .bad then .caution
    else .good
  else if tideS = .caution then
    if windS = .bad ∨ rainS = .bad then .caution
    else .good
  else
    if windS = .bad then .bad
    else if windS = .caution ∨ rainS = .bad then .caution
    else .caution

/-- `evaluateFishing` from `api/rules/fishing.rules.ts`, with `now`
(the source's `new Date()` / `Date.now()`) explicit. -/
def evaluateFishing (context : RuleContext) (now : ℤ) : ActivityRecommendation :=
  let weather := context.weather
  let tides := context.tides
  let thresholds := context.thresholds
  let windEval := BaseRules.evaluateWind weather.windSpeed thresholds.maxWindSpeed
  let rainEval := BaseRules.evaluateRain weather.rain thresholds.maxRain
  let tideEval := BaseRules.evaluateTide tides thresholds.preferredTide now
  let finalStatus := fishingFinalStatus tideEval.status windEval.status rainEval.status
  let nextHighTide := tides.find? (fun t => t.type == .high && decide (now < t.time))
  let nextLowTide := tides.find? (fun t => t.type == .low && decide (now < t.time))
  let preferredTideTime :=
    if thresholds.preferredTide = some .high then nextHighTide else nextLowTide
  let windStr := toFixed1 weather.windSpeed
  let windKmh := toFixed1 (weather.windSpeed * 3.6)
  let reason :=
    if finalStatus = .good then
      if tideEval.status = .good ∨ tideEval.status = .caution then
        let hoursUntil : ℤ :=
          match preferredTideTime with
          | some t => round (((t.time - now : ℤ) : ℚ) / (60 * 60 * 1000))
          | none => 0
        if hoursUntil ≤ 2 ∧ 0 < hoursUntil then
          let tideType := if thresholds.preferredTide = some .high then "high tide" else "low tide"
          let capTide := capitalizeFirst tideType
          let plural := if hoursUntil ≠ 1 then "s" else ""
          s!"Excellent fishing conditions. {capTide} in {hoursUntil} hour{plural} - peak feeding activity expected."
        else if tideEval.status = .good then
          "Great fishing conditions. Active feeding times with favorable tide and manageable weather."
        else
          "Good fishing conditions. Tide timing is favorable with calm conditions."
      else
        "Good fishing conditions. Calm weather makes for comfortable fishing."
    else if finalStatus = .caution then
      if tideEval.status = .bad then
        let nextTideTime :=
          match preferredTideTime with
          | some t => formatHM t.time
          | none => "later"
        let tideType := if thresholds.preferredTide = some .high then "high tide" else "low tide"
        s!"Fishing is possible, but activity is typically better during {tideType}. Next {tideType} at {nextTideTime}."
      else if windEval.status = .caution ∨ windEval.status = .bad then
        s!"Fishing is possible, but wind ({windStr} m/s) may make casting challenging. Tide timing is good though."
      else if rainEval.status = .bad then
        "Fishing is possible in heavy rain, but conditions will be uncomfortable. Fish are still active during good tide timing."
      else
        "Fishing is possible, but conditions are moderate. Activity may vary."
    else
      if windEval.status = .bad ∧ tideEval.status = .bad then
        s!"Poor fishing conditions. Wind is too strong ({windKmh} km/h / {windStr} m/s) and tide timing is not ideal. Wait for better conditions."
      else if windEval.status = .bad then
        s!"Wind is too strong ({windKmh} km/h / {windStr} m/s) for comfortable fishing. Wait for calmer conditions."
      else
        "Poor fishing conditions. Wait for better tide timing and calmer weather."
  let window := BaseRules.calculateWindow context.hourlyForecast thresholds 0 4
  { status := finalStatus
    reason := reason
    window := jsOrString window (if finalStatus = .good then some "Next 2-3 hours" else none) }

/-- The status branches of `evaluateSnorkeling` (`api/rules/snorkel.rules.ts`,
lines 25-55): wind first, rain and clouds can only downgrade when wind is good,
then a bad tide refines good to caution. -/
def snorkelFinalStatus (windS cloudsS rainS tideS : ActivityStatus) : ActivityStatus :=
  let base : ActivityStatus :=
    if windS = .bad then .bad
    else if windS = .caution then
      if rainS = .bad then .bad else .caution
    else
      if rainS = .bad then .caution
      else if cloudsS = .bad then .caution
      else .good
  if base = .good ∧ tideS = .bad then .caution else base

/-- `evaluateSnorkeling` from `api/rules/snorkel.rules.ts`, with `now` explicit. -/
def evaluateSnorkeling (context : RuleContext) (now : ℤ) : ActivityRecommendation :=
  let weather := context.weather
  let thresholds := context.thresholds
  let windEval := BaseRules.evaluateWind weather.windSpeed thresholds.maxWindSpeed
  let cloudsEval := BaseRules.evaluateCloudiness weather.cloudiness thresholds.maxCloudiness
  let rainEval := BaseRules.evaluateRain weather.rain thresholds.maxRain
  let tideEval := BaseRules.evaluateTide context.tides thresholds.preferredTide now
  let finalStatus := snorkelFinalStatus windEval.status cloudsEval.status rainEval.status tideEval.status
  let windStr := toFixed1 weather.windSpeed
  let reason :=
    if finalStatus = .good then
      if tideEval.status = .good then
        if cloudsEval.status = .good then
          "Perfect conditions for snorkeling. Calm waters, clear skies, and excellent visibility."
        else
          "Excellent conditions for snorkeling. Calm waters provide good visibility, though skies are cloudy."
      else
        "Good conditions for snorkeling. Calm sea makes for safe snorkeling with good visibility."
    else if finalStatus = .caution then
      if windEval.status = .caution then
        s!"Moderate wind ({windStr} m/s) will create some surface chop. Visibility may be reduced, but snorkeling is still possible."
      else if windEval.status = .good ∧ cloudsEval.status = .bad then
        "Sea is calm, making snorkeling safe. Cloudy skies reduce light and color vibrancy, but visibility underwater is still good."
      else if rainEval.status = .bad then
        "Heavy rain expected, but sea is calm. Snorkeling is safe but may be less comfortable."
      else if tideEval.status = .bad then
        "Conditions are good, but low tide (better visibility) is coming soon. Still excellent for snorkeling right now."
      else
        "Conditions are acceptable for snorkeling. Visibility may not be optimal, but still good."
    else
      if windEval.status = .bad then
        s!"Wind is too strong ({windStr} m/s) for safe snorkeling. Water will be choppy with poor visibility. Wait for calmer conditions."
      else if rainEval.status = .bad then
        "Heavy rain expected. Conditions will be unsafe with poor visibility. Wait for better weather."
      else
        "Poor conditions for snorkeling. Wait for calmer sea conditions."
  let window := BaseRules.calculateWindow context.hourlyForecast thresholds 0 6
  { status := finalStatus
    reason := reason
    window := jsOrString window (if finalStatus = .good then some "Next 4-6 hours" else none) }

/-- The status branches of `evaluateKayaking` (`api/rules/kayak.rules.ts`,
lines 24-45): wind is the only blocking factor, rain refines, clouds ignored. -/
def kayakFinalStatus (windS rainS : ActivityStatus) : ActivityStatus :=
  if windS = .bad then .bad
  else if windS = .caution then
    if rainS = .bad then .bad else .caution
  else
    if rainS = .bad then .caution else .good

/-- The reason branches of `evaluateKayaking` (`api/rules/kayak.rules.ts`,
lines 47-68), as a function of the wind-speed rendering and the component
statuses only (clouds never appear). -/
def kayakReason (windStr : String) (windS rainS finalS : ActivityStatus) : String :=
  if finalS = .good then
    if windS = .good ∧ rainS = .good then
      "Excellent conditions for kayaking. Calm waters and light winds. Perfect time to go out."
    else
      "Good conditions for kayaking. Calm sea makes paddling safe and enjoyable."
  else if finalS = .caution then
    if windS = .caution then
      s!"Moderate wind ({windStr} m/s). Experienced kayakers should be fine, but beginners should be cautious. Sea conditions are manageable."
    else if rainS = .bad then
      "Heavy rain expected, but sea is calm. Conditions are safe but may be uncomfortable."
    else
      "Conditions are acceptable for kayaking. Sea is manageable but not ideal."
  else
    s!"Wind is too strong ({windStr} m/s) for safe kayaking. Sea will be choppy. Wait for calmer conditions."

/-- `evaluateKayaking` from `api/rules/kayak.rules.ts` (no tide, no clock use). -/
def evaluateKayaking (context : RuleContext) : ActivityRecommendation :=
  let weather := context.weather
  let thresholds := context.thresholds
  let windEval := BaseRules.evaluateWind weather.windSpeed thresholds.maxWindSpeed
  let rainEval := BaseRules.evaluateRain weather.rain thresholds.maxRain
  let finalStatus := kayakFinalStatus windEval.status rainEval.status
  let reason := kayakReason (toFixed1 weather.windSpeed) windEval.status rainEval.status finalStatus
  let window := BaseRules.calculateWindow context.hourlyForecast thresholds 0 8
  { status := finalStatus
    reason := reason
    window := jsOrString window (if finalStatus = .good then some "Next 6-8 hours" else none) }

/-- The status branches of `evaluateSUP` (`api/rules/sup.rules.ts`,
lines 124-144): identical shape to kayaking. -/
def supFinalStatus (windS rainS : ActivityStatus) : ActivityStatus :=
  if windS = .bad then .bad
  else if windS = .caution then
    if rainS = .bad then .bad else .caution
  else
    if rainS = .bad then .caution else .good

/-- The reason branches of `evaluateSUP` (`api/rules/sup.rules.ts`,
lines 146-165), as a function of the wind-speed rendering and the component
statuses only (clouds never appear). -/
def supReason (windStr : String) (windS rainS finalS : ActivityStatus) : String :=
  if finalS = .good then
    if windS = .good then
      "Perfect conditions for SUP. Calm waters and light winds. Ideal for paddling."
    else
      "Good conditions for SUP. Calm sea makes paddling safe."
  else if finalS = .caution then
    if windS = .caution then
      s!"Moderate wind ({windStr} m/s). Good for experienced paddlers, but beginners should be cautious. Balance will be more challenging."
    else if rainS = .bad then
      "Heavy rain expected, but wind is calm. Conditions are safe for experienced paddlers."
    else
      "Conditions are acceptable for SUP. Requires experience and caution."
  else
    s!"Too windy ({windStr} m/s) for safe SUP. Water will be choppy and balance difficult. Wait for calmer conditions."

/-- `evaluateSUP` from `api/rules/sup.rules.ts` (no tide, no clock use). -/
def evaluateSUP (context : RuleContext) : ActivityRecommendation :=
  let weather := context.weather
  let thresholds := context.thresholds
  let windEval := BaseRules.evaluateWind weather.windSpeed thresholds.maxWindSpeed
  let rainEval := BaseRules.evaluateRain weather.rain thresholds.maxRain
  let finalStatus := supFinalStatus windEval.status rainEval.status
  let reason := supReason (toFixed1 weather.windSpeed) windEval.status rainEval.status finalStatus
  let window := BaseRules.calculateWindow context.hourlyForecast thresholds 0 5
  { status := finalStatus
    reason := reason
    window := jsOrString window (if finalStatus = .good then some "Next 4-5 hours" else none) }

/-- Case analysis of the fishing status combination: bad exactly when both the
tide and the wind evaluations are bad, and a good tide with bad wind gives
caution. -/
theorem fishingFinalStatus_cases :
    ∀ t w r : ActivityStatus,
      (fishingFinalStatus t w r = .bad ↔ t = .bad ∧ w = .bad)
      ∧ (t = .good → w = .bad → fishingFinalStatus t w r = .caution) := by
  decide

/-- C1: `evaluateFishing` returns status "bad" iff the tide evaluation and the
wind evaluation are both "bad"; when the tide evaluation is "good", a "bad"
wind evaluation yields exactly "caution", never "bad". -/
theorem fishing_bad_only_when_tide_and_wind_bad (context : RuleContext) (now : ℤ) :
    ((evaluateFishing context now).status = .bad ↔
      (BaseRules.evaluateTide context.tides context.thresholds.preferredTide now).status = .bad ∧
      (BaseRules.evaluateWind context.weather.windSpeed context.thresholds.maxWindSpeed).status = .bad)
    ∧ ((BaseRules.evaluateTide context.tides context.thresholds.preferredTide now).status = .good →
      (BaseRules.evaluateWind context.weather.windSpeed context.thresholds.maxWindSpeed).status = .bad →
      (evaluateFishing context now).status = .caution) := by
  have hstat : (evaluateFishing context now).status =
      fishingFinalStatus
        (BaseRules.evaluateTide context.tides context.thresholds.preferredTide now).status
        (BaseRules.evaluateWind context.weather.windSpeed context.thresholds.maxWindSpeed).status
        (BaseRules.evaluateRain context.weather.rain context.thresholds.maxRain).status := rfl
  rw [hstat]
  exact fishingFinalStatus_cases _ _ _

/-- Concrete run for C1: good tide and bad wind produce "caution". -/
theorem fishing_bad_only_when_tide_and_wind_bad_witness :
    (evaluateFishing
      { weather := { windSpeed := 15, cloudiness := 10, rain := 0, timestamp := 0 }
        tides := [⟨.high, 1, -3600000⟩]
        hourlyForecast := none
        thresholds := { maxWindSpeed := 12, maxCloudiness := 80, maxRain := 5,
                        preferredTide := some .high } } 0).status = .caution :=
  (fishing_bad_only_when_tide_and_wind_bad _ 0).2
    (by norm_num [BaseRules.evaluateTide, List.find?])
    (by norm_num [BaseRules.evaluateWind])

/-- Case analysis of the snorkeling status combination: a good wind status can
never produce a bad final status. -/
theorem snorkelFinalStatus_good_wind :
    ∀ w c r t : ActivityStatus, w = .good → snorkelFinalStatus w c r t ≠ .bad := by
  decide

/-- C2: when the wind evaluation is "good" (wind speed ≤ 0.7 × maxWindSpeed),
`evaluateSnorkeling` never returns status "bad", for every cloudiness, rain
and tide schedule; such factors can lower the result at most to "caution". -/
theorem snorkeling_never_bad_when_wind_good (context : RuleContext) (now : ℤ)
    (h : context.weather.windSpeed ≤ 0.7 * context.thresholds.maxWindSpeed) :
    (evaluateSnorkeling context now).status ≠ .bad := by
  have hw : (BaseRules.evaluateWind context.weather.windSpeed
      context.thresholds.maxWindSpeed).status = .good := by
    unfold BaseRules.evaluateWind
    rw [if_pos (by linarith : context.weather.windSpeed ≤
      context.thresholds.maxWindSpeed * 0.7)]
  have hstat : (evaluateSnorkeling context now).status =
      snorkelFinalStatus
        (BaseRules.evaluateWind context.weather.windSpeed context.thresholds.maxWindSpeed).status
        (BaseRules.evaluateCloudiness context.weather.cloudiness context.thresholds.maxCloudiness).status
        (BaseRules.evaluateRain context.weather.rain context.thresholds.maxRain).status
        (BaseRules.evaluateTide context.tides context.thresholds.preferredTide now).status := rfl
  rw [hstat]
  exact snorkelFinalStatus_good_wind _ _ _ _ hw

/-- Concrete run for C2: calm wind with maximal cloudiness, heavy rain and an
unfavorable tide still avoids "bad". -/
theorem snorkeling_never_bad_when_wind_good_witness :
    (evaluateSnorkeling
      { weather := { windSpeed := 2, cloudiness := 100, rain := 10, timestamp := 0 }
        tides := [⟨.high, 1, 18000000⟩]
        hourlyForecast := none
        thresholds := { maxWindSpeed := 6, maxCloudiness := 40, maxRain := 0.5,
                        preferredTide := some .low } } 0).status ≠ .bad :=
  snorkeling_never_bad_when_wind_good _ 0 (by norm_num)

/-- C3: `evaluateRain` is "good" iff the rain is exactly zero, "caution" iff it
is positive but at most half the threshold, and "bad" iff it exceeds half the
threshold. -/
theorem rain_evaluator_tiers (r m : ℚ) (hr : 0 ≤ r) (hm : 0 < m) :
    ((BaseRules.evaluateRain r m).status = .good ↔ r = 0)
    ∧ ((BaseRules.evaluateRain r m).status = .caution ↔ 0 < r ∧ r ≤ 0.5 * m)
    ∧ ((BaseRules.evaluateRain r m).status = .bad ↔ 0.5 * m < r) := by
  unfold BaseRules.evaluateRain
  split_ifs with h1 h2
  · subst h1
    refine ⟨by simp, by simp, by simp; linarith⟩
  · have hpos : 0 < r := lt_of_le_of_ne hr (Ne.symm h1)
    refine ⟨by simp [h1], ?_, by simp; linarith⟩
    simp only [show ({ status := .caution, severity := r / (m * 0.5) } : Evaluation).status =
      .caution from rfl, true_iff]
    exact ⟨hpos, by linarith⟩
  · push_neg at h2
    refine ⟨by simp [h1], by simp; intro h; linarith, by simp; linarith⟩

/-- Concrete run for C3: rain 1 with threshold 2 is in the "caution" band. -/
theorem rain_evaluator_tiers_witness :
    (0:ℚ) ≤ 1 ∧ (0:ℚ) < 2 ∧
      ((BaseRules.evaluateRain 1 2).status = .caution ↔ 0 < (1:ℚ) ∧ (1:ℚ) ≤ 0.5 * 2) :=
  ⟨by norm_num, by norm_num, (rain_evaluator_tiers 1 2 (by norm_num) (by norm_num)).2.1⟩

/-- The exact 2-hour test of `evaluateTide`, with the rational division
eliminated. -/
theorem tide_hoursUntil_le_two (nt : TideData) (now : ℤ) :
    (((nt.time - now : ℤ) : ℚ) / (60 * 60 * 1000) ≤ 2 ↔ nt.time - now ≤ 7200000) := by
  rw [div_le_iff₀ (by norm_num : (0:ℚ) < 60 * 60 * 1000)]
  norm_num
  exact ⟨fun h => by exact_mod_cast h, fun h => by exact_mod_cast h⟩

/-- C4 (amended): `evaluateTide` with a non-null preference is "good" iff the
first listed event inside the active window (at or before now, within the last
3 hours) has the preferred type; otherwise it is "caution" iff the first listed
future preferred-type event is at most 2 hours away or no future preferred-type
event exists at all, and "bad" iff that first future preferred-type event is
more than 2 hours away. -/
theorem tide_evaluator_characterization (tides : List TideData) (p : TideType) (now : ℤ) :
    ((BaseRules.evaluateTide tides (some p) now).status = .good ↔
      (tides.find? (fun tide =>
        decide (tide.time ≤ now) && decide (now - 3 * 60 * 60 * 1000 < tide.time))).map
        TideData.type = some p)
    ∧ ((BaseRules.evaluateTide tides (some p) now).status = .caution ↔
      ((tides.find? (fun tide =>
        decide (tide.time ≤ now) && decide (now - 3 * 60 * 60 * 1000 < tide.time))).map
        TideData.type ≠ some p ∧
        (tides.find? (fun tide => tide.type == p && decide (now < tide.time)) = none ∨
         ∃ nt, tides.find? (fun tide => tide.type == p && decide (now < tide.time)) = some nt ∧
           nt.time - now ≤ 7200000)))
    ∧ ((BaseRules.evaluateTide tides (some p) now).status = .bad ↔
      ((tides.find? (fun tide =>
        decide (tide.time ≤ now) && decide (now - 3 * 60 * 60 * 1000 < tide.time))).map
        TideData.type ≠ some p ∧
        ∃ nt, tides.find? (fun tide => tide.type == p && decide (now < tide.time)) = some nt ∧
          7200000 < nt.time - now)) := by
  cases hnt : tides.find? (fun tide => tide.type == p && decide (now < tide.time)) with
  | none =>
    simp only [BaseRules.evaluateTide, hnt]
    split_ifs with hc
    · dsimp only
      exact ⟨iff_of_true rfl hc,
        iff_of_false (fun h => nomatch h) (fun h => h.1 hc),
        iff_of_false (fun h => nomatch h) (fun h => h.1 hc)⟩
    · dsimp only
      refine ⟨iff_of_false (fun h => nomatch h) hc,
        iff_of_true rfl ⟨hc, Or.inl trivial⟩,
        iff_of_false (fun h => nomatch h) ?_⟩
      rintro ⟨-, nt, h, -⟩
      exact nomatch h
  | some nt =>
    simp only [BaseRules.evaluateTide, hnt]
    split_ifs with hc hle
    · dsimp only
      exact ⟨iff_of_true rfl hc,
        iff_of_false (fun h => nomatch h) (fun h => h.1 hc),
        iff_of_false (fun h => nomatch h) (fun h => h.1 hc)⟩
    · rw [tide_hoursUntil_le_two] at hle
      dsimp only
      refine ⟨iff_of_false (fun h => nomatch h) hc,
        iff_of_true rfl ⟨hc, Or.inr ⟨nt, rfl, hle⟩⟩,
        iff_of_false (fun h => nomatch h) ?_⟩
      rintro ⟨-, x, hx, hgt⟩
      cases hx
      omega
    · rw [tide_hoursUntil_le_two] at hle
      push_neg at hle
      dsimp only
      refine ⟨iff_of_false (fun h => nomatch h) hc, ?_, iff_of_true rfl ⟨hc, nt, rfl, hle⟩⟩
      refine iff_of_false (fun h => nomatch h) ?_
      rintro ⟨-, (h | ⟨x, hx, hxle⟩)⟩
      · exact nomatch h
      · cases hx
        omega

/-- C4 counterexample: (a) with schedule low@-2.5h, high@-1h, high@+5h and
preferred "high" at now = 0, a preferred-type event lies inside the active
window yet the status is "bad", not "good"; (b) with an empty schedule the
"neither active nor imminent" case yields "caution", not "bad". -/
theorem tide_evaluator_claim_counterexample :
    ((BaseRules.evaluateTide
        [⟨.low, 0.2, -9000000⟩, ⟨.high, 1, -3600000⟩, ⟨.high, 1, 18000000⟩]
        (some .high) 0).status = .bad
      ∧ ∃ t ∈ [(⟨.low, 0.2, -9000000⟩ : TideData), ⟨.high, 1, -3600000⟩, ⟨.high, 1, 18000000⟩],
          t.type = .high ∧ t.time ≤ 0 ∧ (0 : ℤ) - 3 * 60 * 60 * 1000 < t.time)
    ∧ ((BaseRules.evaluateTide [] (some .high) 0).status = .caution
      ∧ ¬∃ t ∈ ([] : List TideData), t.type = .high) := by
  refine ⟨⟨?_, ?_⟩, ?_, by simp⟩
  · norm_num [BaseRules.evaluateTide, List.find?]
    try decide
  · exact ⟨⟨.high, 1, -3600000⟩, by simp, rfl, by norm_num, by norm_num⟩
  · norm_num [BaseRules.evaluateTide, List.find?]
    try decide

/-- Equality of two forecast hours in every field except `cloudiness`. -/
def hourEqExceptClouds (x y : HourlyForecast) : Prop :=
  x.time = y.time ∧ x.windSpeed = y.windSpeed ∧ x.windDirection = y.windDirection ∧
  x.rain = y.rain ∧ x.temperature = y.temperature ∧ x.pressure = y.pressure ∧
  x.humidity = y.humidity ∧ x.tideHeight = y.tideHeight

/-- Pointwise `hourEqExceptClouds` on equally long forecast lists. -/
def forecastEqExceptClouds : List HourlyForecast → List HourlyForecast → Prop
  | [], [] => True
  | x :: xs, y :: ys => hourEqExceptClouds x y ∧ forecastEqExceptClouds xs ys
  | _, _ => False

/-- Two rule contexts that are identical except for cloudiness values in the
current weather snapshot and/or in the hourly forecast. -/
def sameExceptCloudiness (a b : RuleContext) : Prop :=
  a.weather.windSpeed = b.weather.windSpeed ∧
  a.weather.windDirection = b.weather.windDirection ∧
  a.weather.rain = b.weather.rain ∧
  a.weather.temperature = b.weather.temperature ∧
  a.weather.pressure = b.weather.pressure ∧
  a.weather.humidity = b.weather.humidity ∧
  a.weather.timestamp = b.weather.timestamp ∧
  a.tides = b.tides ∧
  a.thresholds = b.thresholds ∧
  ((a.hourlyForecast = none ∧ b.hourlyForecast = none) ∨
    (∃ la lb, a.hourlyForecast = some la ∧ b.hourlyForecast = some lb ∧
      forecastEqExceptClouds la lb))

/-- A kayaking context whose 4-hour forecast is fully favorable. -/
def kayakCloudCtxA : RuleContext :=
  { weather := { windSpeed := 2, cloudiness := 0, rain := 0, timestamp := 0 }
    tides := []
    hourlyForecast := some
      [ { time := 0, windSpeed := 2, rain := 0, cloudiness := 10 }
      , { time := 3600000, windSpeed := 2, rain := 0, cloudiness := 10 }
      , { time := 7200000, windSpeed := 2, rain := 0, cloudiness := 10 }
      , { time := 10800000, windSpeed := 2, rain := 0, cloudiness := 10 } ]
    thresholds := { maxWindSpeed := 10, maxCloudiness := 70, maxRain := 2,
                    preferredTide := none } }

/-- The same context with only the first forecast hour's cloudiness raised
past the threshold. -/
def kayakCloudCtxB : RuleContext :=
  { weather := { windSpeed := 2, cloudiness := 0, rain := 0, timestamp := 0 }
    tides := []
    hourlyForecast := some
      [ { time := 0, windSpeed := 2, rain := 0, cloudiness := 100 }
      , { time := 3600000, windSpeed := 2, rain := 0, cloudiness := 10 }
      , { time := 7200000, windSpeed := 2, rain := 0, cloudiness := 10 }
      , { time := 10800000, windSpeed := 2, rain := 0, cloudiness := 10 } ]
    thresholds := { maxWindSpeed := 10, maxCloudiness := 70, maxRain := 2,
                    preferredTide := none } }

/-- The two kayaking contexts differ only in forecast cloudiness. -/
theorem kayakCloudCtx_rel : sameExceptCloudiness kayakCloudCtxA kayakCloudCtxB := by
  refine ⟨rfl, rfl, rfl, rfl, rfl, rfl, rfl, rfl, rfl, Or.inr ⟨_, _, rfl, rfl, ?_⟩⟩
  exact ⟨⟨rfl, rfl, rfl, rfl, rfl, rfl, rfl, rfl⟩,
    ⟨rfl, rfl, rfl, rfl, rfl, rfl, rfl, rfl⟩,
    ⟨rfl, rfl, rfl, rfl, rfl, rfl, rfl, rfl⟩,
    ⟨rfl, rfl, rfl, rfl, rfl, rfl, rfl, rfl⟩, trivial⟩

theorem kayakCloudCtxA_window :
    (evaluateKayaking kayakCloudCtxA).window = some "Next 4-6 hours" := by
  norm_num [evaluateKayaking, kayakCloudCtxA, kayakFinalStatus, jsOrString,
    BaseRules.calculateWindow, BaseRules.countGoodHours, BaseRules.windowHourOk,
    BaseRules.jsOrNum, BaseRules.evaluateWind, BaseRules.evaluateCloudiness,
    BaseRules.evaluateRain]
  decide

theorem kayakCloudCtxB_window :
    (evaluateKayaking kayakCloudCtxB).window = some "Next 6-8 hours" := by
  norm_num [evaluateKayaking, kayakCloudCtxB, kayakFinalStatus, jsOrString,
    BaseRules.calculateWindow, BaseRules.countGoodHours, BaseRules.windowHourOk,
    BaseRules.jsOrNum, BaseRules.evaluateWind, BaseRules.evaluateCloudiness,
    BaseRules.evaluateRain]
  decide

/-- C5 counterexample: two rule contexts identical except for cloudiness (the
first forecast hour's cloudiness raised past the kayaking threshold) yield
different `evaluateKayaking` recommendations — the window changes — so the
full recommendation is not invariant under cloudiness changes. -/
theorem kayak_cloud_invariance_counterexample :
    sameExceptCloudiness kayakCloudCtxA kayakCloudCtxB ∧
    evaluateKayaking kayakCloudCtxA ≠ evaluateKayaking kayakCloudCtxB := by
  refine ⟨kayakCloudCtx_rel, fun h => ?_⟩
  have hw := congrArg ActivityRecommendation.window h
  rw [kayakCloudCtxA_window, kayakCloudCtxB_window] at hw
  exact absurd (Option.some.inj hw) (by decide)

/-- C5 (amended): for any two rule contexts identical except for cloudiness,
`evaluateKayaking` and `evaluateSUP` return the same status and the same
reason text in both runs; only the window field may differ (it consults
forecast cloudiness through `calculateWindow`). -/
theorem kayak_sup_status_reason_cloud_invariant (a b : RuleContext)
    (h : sameExceptCloudiness a b) :
    ((evaluateKayaking a).status = (evaluateKayaking b).status ∧
     (evaluateKayaking a).reason = (evaluateKayaking b).reason) ∧
    ((evaluateSUP a).status = (evaluateSUP b).status ∧
     (evaluateSUP a).reason = (evaluateSUP b).reason) := by
  obtain ⟨hw, -, hr, -, -, -, -, -, hth, -⟩ := h
  have sKa : (evaluateKayaking a).status = kayakFinalStatus
      (BaseRules.evaluateWind a.weather.windSpeed a.thresholds.maxWindSpeed).status
      (BaseRules.evaluateRain a.weather.rain a.thresholds.maxRain).status := rfl
  have sKb : (evaluateKayaking b).status = kayakFinalStatus
      (BaseRules.evaluateWind b.weather.windSpeed b.thresholds.maxWindSpeed).status
      (BaseRules.evaluateRain b.weather.rain b.thresholds.maxRain).status := rfl
  have rKa : (evaluateKayaking a).reason = kayakReason (toFixed1 a.weather.windSpeed)
      (BaseRules.evaluateWind a.weather.windSpeed a.thresholds.maxWindSpeed).status
      (BaseRules.evaluateRain a.weather.rain a.thresholds.maxRain).status
      (kayakFinalStatus
        (BaseRules.evaluateWind a.weather.windSpeed a.thresholds.maxWindSpeed).status
        (BaseRules.evaluateRain a.weather.rain a.thresholds.maxRain).status) := rfl
  have rKb : (evaluateKayaking b).reason = kayakReason (toFixed1 b.weather.windSpeed)
      (BaseRules.evaluateWind b.weather.windSpeed b.thresholds.maxWindSpeed).status
      (BaseRules.evaluateRain b.weather.rain b.thresholds.maxRain).status
      (kayakFinalStatus
        (BaseRules.evaluateWind b.weather.windSpeed b.thresholds.maxWindSpeed).status
        (BaseRules.evaluateRain b.weather.rain b.thresholds.maxRain).status) := rfl
  have sSa : (evaluateSUP a).status = supFinalStatus
      (BaseRules.evaluateWind a.weather.windSpeed a.thresholds.maxWindSpeed).status
      (BaseRules.evaluateRain a.weather.rain a.thresholds.maxRain).status := rfl
  have sSb : (evaluateSUP b).status = supFinalStatus
      (BaseRules.evaluateWind b.weather.windSpeed b.thresholds.maxWindSpeed).status
      (BaseRules.evaluateRain b.weather.rain b.thresholds.maxRain).status := rfl
  have rSa : (evaluateSUP a).reason = supReason (toFixed1 a.weather.windSpeed)
      (BaseRules.evaluateWind a.weather.windSpeed a.thresholds.maxWindSpeed).status
      (BaseRules.evaluateRain a.weather.rain a.thresholds.maxRain).status
      (supFinalStatus
        (BaseRules.evaluateWind a.weather.windSpeed a.thresholds.maxWindSpeed).status
        (BaseRules.evaluateRain a.weather.rain a.thresholds.maxRain).status) := rfl
  have rSb : (evaluateSUP b).reason = supReason (toFixed1 b.weather.windSpeed)
      (BaseRules.evaluateWind b.weather.windSpeed b.thresholds.maxWindSpeed).status
      (BaseRules.evaluateRain b.weather.rain b.thresholds.maxRain).status
      (supFinalStatus
        (BaseRules.evaluateWind b.weather.windSpeed b.thresholds.maxWindSpeed).status
        (BaseRules.evaluateRain b.weather.rain b.thresholds.maxRain).status) := rfl
  rw [sKa, sKb, rKa, rKb, sSa, sSb, rSa, rSb, hw, hr, hth]
  exact ⟨⟨rfl, rfl⟩, rfl, rfl⟩

/-- Concrete run for the amended C5: the cloudiness change between the two
kayaking contexts leaves status and reason unchanged. -/
theorem kayak_sup_status_reason_cloud_invariant_witness :
    (evaluateKayaking kayakCloudCtxA).status = (evaluateKayaking kayakCloudCtxB).status ∧
    (evaluateKayaking kayakCloudCtxA).reason = (evaluateKayaking kayakCloudCtxB).reason :=
  (kayak_sup_status_reason_cloud_invariant kayakCloudCtxA kayakCloudCtxB kayakCloudCtx_rel).1

/-- One sample of the dense tide-height series (`heights` entries of the
WorldTides response, `{dt, height}`), time in epoch milliseconds. -/
structure HeightSample where
  time : ℤ
  height : ℚ
deriving DecidableEq, Repr

/-- The comparator of `normalized.sort((a, b) => time a - time b)`. -/
abbrev tideTimeLE (a b : TideData) : Prop := a.time ≤ b.time

instance : IsTotal TideData tideTimeLE := ⟨fun a b => le_total a.time b.time⟩

instance : IsTrans TideData tideTimeLE := ⟨fun _ _ _ hab hbc => le_trans hab hbc⟩

/-- The 5-point sliding-window extrema scan of `TidesProvider.fetchTides`
(`api/providers/tides.provider.ts`, lines 113-150): for each index `i` with
`2 ≤ i < length - 2`, the centre is a high tide if it is the maximum of its
window, above average and above 0.3 m, and a low tide if it is the minimum,
below average and below 0.7 m. -/
def extract5 (heights : List HeightSample) (avgHeight : ℚ) : List TideData :=
  (List.range heights.length).filterMap fun i =>
    if 2 ≤ i ∧ i + 2 < heights.length then
      match heights.get? (i - 2), heights.get? (i - 1), heights.get? i,
          heights.get? (i + 1), heights.get? (i + 2) with
      | some prev2, some prev1, some currHeight, some next1, some next2 =>
        let curr := currHeight.height
        let maxInWindow :=
          max prev2.height (max prev1.height (max curr (max next1.height next2.height)))
        let minInWindow :=
          min prev2.height (min prev1.height (min curr (min next1.height next2.height)))
        if curr = maxInWindow ∧ curr > avgHeight ∧ curr > 0.3 then
          some { type := .high, height := curr, time := currHeight.time }
        else if curr = minInWindow ∧ curr < avgHeight ∧ curr < 0.7 then
          some { type := .low, height := curr, time := currHeight.time }
        else none
      | _, _, _, _, _ => none
    else none

/-- The lenient 3-point scan used when the 5-point scan finds fewer than 4
extrema (`api/providers/tides.provider.ts`, lines 153-181). -/
def extract3 (heights : List HeightSample) : List TideData :=
  (List.range heights.length).filterMap fun i =>
    if 1 ≤ i ∧ i + 1 < heights.length then
      match heights.get? (i - 1), heights.get? i, heights.get? (i + 1) with
      | some prevHeight, some currHeight, some nextHeight =>
        let prev := prevHeight.height
        let curr := currHeight.height
        let next := nextHeight.height
        if curr > prev ∧ curr > next ∧ curr > 0.3 then
          some { type := .high, height := curr, time := currHeight.time }
        else if curr < prev ∧ curr < next ∧ curr < 0.7 then
          some { type := .low, height := curr, time := currHeight.time }
        else none
      | _, _, _ => none
    else none

/-- The deduplication loop of `fetchTides` (lines 188-195): an event is kept
iff it is the first, or lies strictly more than 60 minutes from the last kept
event. -/
def dedupGo : Option TideData → List TideData → List TideData
  | _, [] => []
  | lastTide, tide :: rest =>
    match lastTide with
    | none => tide :: dedupGo (some tide) rest
    | some lastKept =>
      if 60 * 60 * 1000 < |tide.time - lastKept.time| then
        tide :: dedupGo (some tide) rest
      else
        dedupGo (some lastKept) rest

/-- `Remove duplicates (same time within 1 hour)` over the sorted list. -/
def dedupTides (l : List TideData) : List TideData := dedupGo none l

/-- The derived-extrema branch of `fetchTides` (no explicit extremes and no
predictions in the payload): mean height, 5-point scan, 3-point fallback when
fewer than 4 extrema were found, then chronological sort and deduplication. -/
def deriveTideEvents (heights : List HeightSample) : List TideData :=
  let avgHeight := (heights.map HeightSample.height).sum / (heights.length : ℚ)
  let firstPass := extract5 heights avgHeight
  let normalized := if firstPass.length < 4 then extract3 heights else firstPass
  dedupTides (List.insertionSort tideTimeLE normalized)

/-- Invariant of the dedup loop on a sorted input whose elements all lie at or
after the last kept event: every surviving event is more than 60 minutes after
the last kept one, and the output gaps all exceed 60 minutes. -/
theorem dedupGo_sorted_pairwise :
    ∀ (l : List TideData) (p : TideData),
      l.Pairwise tideTimeLE → (∀ t ∈ l, p.time ≤ t.time) →
      ((dedupGo (some p) l).Pairwise fun a b => 60 * 60 * 1000 < b.time - a.time)
      ∧ ∀ t ∈ dedupGo (some p) l, 60 * 60 * 1000 < t.time - p.time := by
  intro l
  induction l with
  | nil =>
    intro p _ _
    exact ⟨List.Pairwise.nil, by simp [dedupGo]⟩
  | cons t rest ih =>
    intro p hsort hp
    have hrest_sorted : rest.Pairwise tideTimeLE := (List.pairwise_cons.mp hsort).2
    have ht_rest : ∀ x ∈ rest, t.time ≤ x.time := (List.pairwise_cons.mp hsort).1
    have hpt : p.time ≤ t.time := hp t (List.mem_cons_self t rest)
    simp only [dedupGo]
    split_ifs with habs
    · have hRpt : 60 * 60 * 1000 < t.time - p.time := by
        rw [abs_of_nonneg (by omega : (0:ℤ) ≤ t.time - p.time)] at habs
        omega
      obtain ⟨pw, hall⟩ := ih t hrest_sorted ht_rest
      refine ⟨List.pairwise_cons.mpr ⟨fun x hx => hall x hx, pw⟩, ?_⟩
      intro x hx
      rcases List.mem_cons.mp hx with rfl | hx'
      · exact hRpt
      · have := hall x hx'
        omega
    · exact ih p hrest_sorted fun x hx => le_trans hpt (ht_rest x hx)

/-- Deduplication of a chronologically sorted list leaves pairwise gaps of
more than 60 minutes. -/
theorem dedupTides_pairwise (l : List TideData) (hsort : l.Pairwise tideTimeLE) :
    (dedupTides l).Pairwise fun a b => 60 * 60 * 1000 < b.time - a.time := by
  cases l with
  | nil => simp [dedupTides, dedupGo]
  | cons t rest =>
    simp only [dedupTides, dedupGo]
    obtain ⟨pw, hall⟩ := dedupGo_sorted_pairwise rest t
      (List.pairwise_cons.mp hsort).2 (List.pairwise_cons.mp hsort).1
    exact List.pairwise_cons.mpr ⟨fun x hx => hall x hx, pw⟩

/-- C6: the tide events derived from a dense height series are chronologically
ordered, and no two returned events of any type lie within 60 minutes of each
other. -/
theorem derived_tide_events_sorted_and_deduped (heights : List HeightSample) :
    ((deriveTideEvents heights).Pairwise fun a b => a.time ≤ b.time)
    ∧ ((deriveTideEvents heights).Pairwise fun a b => 60 * 60 * 1000 < |b.time - a.time|) := by
  have h := dedupTides_pairwise
    (List.insertionSort tideTimeLE
      (if (extract5 heights ((heights.map HeightSample.height).sum / (heights.length : ℚ))).length < 4
        then extract3 heights
        else extract5 heights ((heights.map HeightSample.height).sum / (heights.length : ℚ))))
    (List.sorted_insertionSort tideTimeLE _)
  exact ⟨h.imp fun hab => by omega,
    h.imp fun hab => by rw [abs_of_nonneg (by omega)]; omega⟩

/-- `Math.abs(hourTime.getTime() - tideTime.getTime())` for the merge step. -/
def tideDelta (hourTime : ℤ) (s : HeightSample) : ℤ := |hourTime - s.time|

/-- One step of the `reduce` that finds the closest tide-height sample: the
candidate replaces the accumulator only when strictly closer. -/
def closerTide (hourTime : ℤ) (closest tide : HeightSample) : HeightSample :=
  if tideDelta hourTime tide < tideDelta hourTime closest then tide else closest

/-- `Number(closestTide.height.toFixed(2))`. -/
def round2 (x : ℚ) : ℚ := round (x * 100) / 100

/-- Merge of one forecast hour (`ocean-status.service.ts`, lines 103-126):
find the closest tide-height sample via `reduce` and attach its rounded height
iff it lies within 30 minutes of the hour. -/
def mergeHour (heights : List HeightSample) (hour : HourlyForecast) : HourlyForecast :=
  match heights with
  | [] => hour
  | first :: rest =>
    let closestTide := rest.foldl (closerTide hour.time) first
    if tideDelta hour.time closestTide ≤ 30 * 60 * 1000 then
      { hour with tideHeight := some (round2 closestTide.height) }
    else hour

/-- The merge step of `getOceanStatus`: map `mergeHour` over the hourly
weather series. -/
def mergeHourlyForecast (hourly : List HourlyForecast) (heights : List HeightSample) :
    List HourlyForecast :=
  hourly.map (mergeHour heights)

/-- The `reduce` over the tail starting from the head computes an element of
the list achieving the minimal time delta. -/
theorem foldl_closerTide_min (hourTime : ℤ) :
    ∀ (l : List HeightSample) (init : HeightSample),
      (l.foldl (closerTide hourTime) init = init ∨ l.foldl (closerTide hourTime) init ∈ l)
      ∧ tideDelta hourTime (l.foldl (closerTide hourTime) init) ≤ tideDelta hourTime init
      ∧ ∀ s ∈ l, tideDelta hourTime (l.foldl (closerTide hourTime) init) ≤ tideDelta hourTime s := by
  intro l
  induction l with
  | nil => exact fun init => ⟨Or.inl rfl, le_refl _, by simp⟩
  | cons a rest ih =>
    intro init
    simp only [List.foldl_cons]
    obtain ⟨hmem, hle, hall⟩ := ih (closerTide hourTime init a)
    have hstep_le_init :
        tideDelta hourTime (closerTide hourTime init a) ≤ tideDelta hourTime init := by
      unfold closerTide
      split_ifs with h
      · exact le_of_lt h
      · exact le_refl _
    have hstep_le_a :
        tideDelta hourTime (closerTide hourTime init a) ≤ tideDelta hourTime a := by
      unfold closerTide
      split_ifs with h
      · exact le_refl _
      · exact not_lt.mp h
    refine ⟨?_, le_trans hle hstep_le_init, ?_⟩
    · rcases hmem with heq | hmem'
      · by_cases h : tideDelta hourTime a < tideDelta hourTime init
        · right
          rw [heq]
          unfold closerTide
          rw [if_pos h]
          exact List.mem_cons_self a rest
        · left
          rw [heq]
          unfold closerTide
          rw [if_neg h]
      · exact Or.inr (List.mem_cons_of_mem a hmem')
    · intro s hs
      rcases List.mem_cons.mp hs with rfl | hs'
      · exact le_trans hle hstep_le_a
      · exact hall s hs'

/-- C8: with a nonempty dense tide-height series the merge step preserves the
length and order of the hourly forecast and every field of every hour except
`tideHeight`; for an hour without a pre-existing tide height, `tideHeight` is
attached iff some sample (equivalently, the closest sample) lies within 30
minutes of the hour. -/
theorem merge_preserves_hours_and_attaches_within_30min
    (hourly : List HourlyForecast) (heights : List HeightSample) (hne : heights ≠ []) :
    (mergeHourlyForecast hourly heights).length = hourly.length
    ∧ ∀ (i : ℕ) (hIn : HourlyForecast), hourly[i]? = some hIn →
      ∃ hOut : HourlyForecast, (mergeHourlyForecast hourly heights)[i]? = some hOut ∧
        hOut.time = hIn.time ∧ hOut.windSpeed = hIn.windSpeed ∧
        hOut.windDirection = hIn.windDirection ∧ hOut.rain = hIn.rain ∧
        hOut.cloudiness = hIn.cloudiness ∧ hOut.temperature = hIn.temperature ∧
        hOut.pressure = hIn.pressure ∧ hOut.humidity = hIn.humidity ∧
        (hIn.tideHeight = none →
          (hOut.tideHeight.isSome = true ↔
            ∃ s ∈ heights, |hIn.time - s.time| ≤ 30 * 60 * 1000)) := by
  constructor
  · simp [mergeHourlyForecast]
  · intro i hIn hget
    have hmap : (mergeHourlyForecast hourly heights)[i]? = some (mergeHour heights hIn) := by
      simp [mergeHourlyForecast, List.getElem?_map, hget]
    refine ⟨mergeHour heights hIn, hmap, ?_⟩
    cases heights with
    | nil => exact absurd rfl hne
    | cons first rest =>
      obtain ⟨hmem, hle, hall⟩ := foldl_closerTide_min hIn.time rest first
      simp only [mergeHour]
      split_ifs with hdelta
      · refine ⟨rfl, rfl, rfl, rfl, rfl, rfl, rfl, rfl, fun _ => ?_⟩
        simp only [Option.isSome_some, true_iff]
        refine ⟨rest.foldl (closerTide hIn.time) first, ?_, hdelta⟩
        rcases hmem with heq | hmem'
        · rw [heq]
          exact List.mem_cons_self first rest
        · exact List.mem_cons_of_mem first hmem'
      · refine ⟨rfl, rfl, rfl, rfl, rfl, rfl, rfl, rfl, fun h0 => ?_⟩
        rw [h0]
        simp only [Option.isSome_none, Bool.false_eq_true, false_iff]
        rintro ⟨s, hs, hsle⟩
        push_neg at hdelta
        have hmin : tideDelta hIn.time (rest.foldl (closerTide hIn.time) first) ≤
            tideDelta hIn.time s := by
          rcases List.mem_cons.mp hs with rfl | hs'
          · exact hle
          · exact hall s hs'
        have hds : tideDelta hIn.time s = |hIn.time - s.time| := rfl
        rw [hds] at hmin
        linarith

/-- Concrete run for C8: a single-hour forecast merged with a single sample
keeps its length. -/
theorem merge_preserves_hours_witness :
    ([⟨0, 0.5⟩] : List HeightSample) ≠ [] ∧
    (mergeHourlyForecast [{ time := 0, windSpeed := 2, rain := 0, cloudiness := 10 }]
      [⟨0, 0.5⟩]).length = 1 :=
  ⟨by simp, (merge_preserves_hours_and_attaches_within_30min _ _ (by simp)).1⟩

/-- Result of `WeatherProvider.fetchWeather`
(`lib/api/providers/weather.provider.ts`). -/
structure WeatherProviderResult where
  data : WeatherData
  hourly : Option (List HourlyForecast) := none
  error : Option ProviderError := none
deriving DecidableEq, Repr

/-- Result of `TidesProvider.fetchTides` (variant with a dense
`hourlyHeights` series). -/
structure TidesProviderResult where
  data : List TideData
  hourlyHeights : Option (List HeightSample) := none
  error : Option ProviderError := none
deriving DecidableEq, Repr

/-- Region coordinates from `lib/api/types/region.ts`. -/
structure Coordinates where
  latitude : ℚ
  longitude : ℚ
deriving DecidableEq, Repr

/-- The per-activity threshold table of a `RegionConfig`. -/
structure RegionThresholds where
  snorkeling : ActivityThresholds
  kayaking : ActivityThresholds
  sup : ActivityThresholds
  fishing : ActivityThresholds
deriving DecidableEq, Repr

/-- `RegionConfig` from `lib/api/types/region.ts`. -/
structure RegionConfig where
  id : String
  name : String
  displayName : String
  coordinates : Coordinates
  thresholds : RegionThresholds
deriving DecidableEq, Repr

/-- The `Record<ActivityType, ActivityRecommendation>` of the response. -/
structure ActivityRecommendations where
  snorkeling : ActivityRecommendation
  kayaking : ActivityRecommendation
  sup : ActivityRecommendation
  fishing : ActivityRecommendation
deriving DecidableEq, Repr

/-- `CurrentConditions` from `ocean-status.service.ts`. -/
structure CurrentConditions where
  weather : WeatherData
  currentTide : Option TideData
  nextTide : Option TideData
  hourlyForecast : Option (List HourlyForecast) := none
deriving DecidableEq, Repr

/-- `OceanStatusResponse` from `ocean-status.service.ts`; an absent `errors`
field models the omitted key of `...(errors.length > 0 && { errors })`. -/
structure OceanStatusResponse where
  region : String
  timestamp : ℤ
  activities : ActivityRecommendations
  conditions : Option CurrentConditions := none
  hourlyForecast : Option (List HourlyForecast) := none
  errors : Option (List ProviderError) := none
deriving DecidableEq, Repr

/-- JS nullish coalescing `a ?? b` on optional numeric fields. -/
def jsNullish (a b : Option ℚ) : Option ℚ :=
  match a with
  | some v => some v
  | none => b

/-- The catch branch of `WeatherProvider.fetchWeather`
(`lib/api/providers/weather.provider.ts`, lines 121-134): spread the mock
result and tag it with a "weather" `ProviderError` with `fallbackUsed: true`. -/
def fetchWeatherFallback (mockData : WeatherProviderResult) (message : String) :
    WeatherProviderResult :=
  { data := mockData.data
    hourly := mockData.hourly
    error := some { provider := "weather", message := message, fallbackUsed := true } }

/-- `OceanStatusService.getOceanStatus` (`lib/api/services/ocean-status.service.ts`,
lines 42-172) as a pure function of the two provider results and the clock:
error collection, the four evaluations, current/next tide scan, tide-height
merge, zero-wind backfill, and response assembly. -/
def getOceanStatus (regionConfig : RegionConfig) (weatherResult : WeatherProviderResult)
    (tidesResult : TidesProviderResult) (now : ℤ) : OceanStatusResponse :=
  let errors := weatherResult.error.toList ++ tidesResult.error.toList
  let activities : ActivityRecommendations :=
    { snorkeling := evaluateSnorkeling
        { weather := weatherResult.data, tides := tidesResult.data,
          hourlyForecast := weatherResult.hourly,
          thresholds := regionConfig.thresholds.snorkeling } now
      kayaking := evaluateKayaking
        { weather := weatherResult.data, tides := tidesResult.data,
          hourlyForecast := weatherResult.hourly,
          thresholds := regionConfig.thresholds.kayaking }
      sup := evaluateSUP
        { weather := weatherResult.data, tides := tidesResult.data,
          hourlyForecast := weatherResult.hourly,
          thresholds := regionConfig.thresholds.sup }
      fishing := evaluateFishing
        { weather := weatherResult.data, tides := tidesResult.data,
          hourlyForecast := weatherResult.hourly,
          thresholds := regionConfig.thresholds.fishing } now }
  let currentTide := tidesResult.data.find? fun tide =>
    decide (tide.time ≤ now) && decide (now - 3 * 60 * 60 * 1000 < tide.time)
  let nextTide := tidesResult.data.find? fun tide => decide (now < tide.time)
  let mergedHourlyForecast :=
    match weatherResult.hourly, tidesResult.hourlyHeights with
    | some hf, some hh =>
      if hh.length > 0 then some (mergeHourlyForecast hf hh) else weatherResult.hourly
    | _, _ => weatherResult.hourly
  let currentWeather :=
    if weatherResult.data.windSpeed = 0 then
      match mergedHourlyForecast with
      | some (firstForecast :: _) =>
        if firstForecast.windSpeed > 0 ∧ |now - firstForecast.time| ≤ 60 * 60 * 1000 then
          { weatherResult.data with
            windSpeed := firstForecast.windSpeed
            windDirection := jsNullish firstForecast.windDirection weatherResult.data.windDirection
            cloudiness := firstForecast.cloudiness
            rain := firstForecast.rain
            temperature := jsNullish firstForecast.temperature weatherResult.data.temperature
            pressure := jsNullish firstForecast.pressure weatherResult.data.pressure
            humidity := jsNullish firstForecast.humidity weatherResult.data.humidity }
        else weatherResult.data
      | _ => weatherResult.data
    else weatherResult.data
  let conditions : CurrentConditions :=
    { weather := currentWeather, currentTide := currentTide, nextTide := nextTide,
      hourlyForecast := mergedHourlyForecast }
  { region := regionConfig.name
    timestamp := now
    activities := activities
    conditions := some conditions
    hourlyForecast := mergedHourlyForecast
    errors := if errors.length > 0 then some errors else none }

/-- C9: when the weather fetch fails and the fallback result is used, the
response still carries a recommendation for all four activities computed from
the synthesized data, and its error list contains the "weather"
`ProviderError` with `fallbackUsed = true`; moreover, for any provider
results, the `errors` field is present iff at least one provider error
occurred. -/
theorem ocean_status_weather_fallback (regionConfig : RegionConfig)
    (mockData : WeatherProviderResult) (message : String)
    (tidesResult : TidesProviderResult) (now : ℤ)
    (htides : tidesResult.error = none) :
    ((getOceanStatus regionConfig (fetchWeatherFallback mockData message) tidesResult
        now).activities =
      { snorkeling := evaluateSnorkeling
          { weather := mockData.data, tides := tidesResult.data,
            hourlyForecast := mockData.hourly,
            thresholds := regionConfig.thresholds.snorkeling } now
        kayaking := evaluateKayaking
          { weather := mockData.data, tides := tidesResult.data,
            hourlyForecast := mockData.hourly,
            thresholds := regionConfig.thresholds.kayaking }
        sup := evaluateSUP
          { weather := mockData.data, tides := tidesResult.data,
            hourlyForecast := mockData.hourly,
            thresholds := regionConfig.thresholds.sup }
        fishing := evaluateFishing
          { weather := mockData.data, tides := tidesResult.data,
            hourlyForecast := mockData.hourly,
            thresholds := regionConfig.thresholds.fishing } now })
    ∧ ((getOceanStatus regionConfig (fetchWeatherFallback mockData message) tidesResult
        now).errors =
      some [{ provider := "weather", message := message, fallbackUsed := true }])
    ∧ (∀ (wr : WeatherProviderResult) (tr : TidesProviderResult),
        (getOceanStatus regionConfig wr tr now).errors.isSome = true ↔
          (wr.error.isSome = true ∨ tr.error.isSome = true)) := by
  refine ⟨rfl, ?_, ?_⟩
  · simp [getOceanStatus, fetchWeatherFallback, htides, Option.toList]
  · intro wr tr
    cases hw : wr.error <;> cases ht : tr.error <;>
      simp [getOceanStatus, hw, ht, Option.toList]

/-- Concrete run for C9: with an empty tide result, the fallback response
carries exactly the weather provider error. -/
theorem ocean_status_weather_fallback_witness :
    (getOceanStatus
      { id := "cabarete", name := "Cabarete", displayName := "Cabarete, DR",
        coordinates := { latitude := 19.7495, longitude := -70.4083 },
        thresholds :=
          { snorkeling := { maxWindSpeed := 6, maxCloudiness := 40, maxRain := 0.5,
                            preferredTide := some .low }
            kayaking := { maxWindSpeed := 10, maxCloudiness := 70, maxRain := 2,
                          preferredTide := none }
            sup := { maxWindSpeed := 8, maxCloudiness := 60, maxRain := 1,
                     preferredTide := none }
            fishing := { maxWindSpeed := 12, maxCloudiness := 80, maxRain := 5,
                         preferredTide := some .high } } }
      (fetchWeatherFallback
        { data := { windSpeed := 3, cloudiness := 50, rain := 0, timestamp := 0 } }
        "OpenWeather API request timeout (15s)")
      { data := [] } 0).errors =
    some [{ provider := "weather", message := "OpenWeather API request timeout (15s)",
            fallbackUsed := true }] :=
  (ocean_status_weather_fallback _ _ _ _ 0 rfl).2.1

/-- `CACHE_TTL = 10 * 60 * 1000` from `lib/api-handler.ts`. -/
def CACHE_TTL : ℤ := 10 * 60 * 1000

/-- `CacheEntry` from `lib/api-handler.ts`. -/
structure CacheEntry where
  data : OceanStatusResponse
  timestamp : ℤ

/-- The region-keyed in-memory store (`Map<string, CacheEntry>`). -/
def CacheMap : Type := String → Option CacheEntry

/-- `setCache` from `lib/api-handler.ts`: store the entry under the region id
with the current instant as its insertion timestamp. -/
def setCache (regionId : String) (data : OceanStatusResponse) (now : ℤ)
    (cache : CacheMap) : CacheMap :=
  fun k => if k = regionId then some { data := data, timestamp := now } else cache k

/-- `getCached` from `lib/api-handler.ts`, returning the read result together
with the store after the read (an entry older than the TTL is deleted and
reported absent). -/
def getCached (regionId : String) (now : ℤ) (cache : CacheMap) :
    Option OceanStatusResponse × CacheMap :=
  match cache regionId with
  | none => (none, cache)
  | some entry =>
    if now - entry.timestamp > CACHE_TTL then
      (none, fun k => if k = regionId then none else cache k)
    else
      (some entry.data, cache)

/-- C7: a `get` performed immediately after `put(regionId, response)` returns
exactly the stored response, and a `get` performed after the 10-minute TTL has
elapsed since insertion returns absent and removes the entry from the store. -/
theorem cache_roundtrip_and_lazy_expiry (cache : CacheMap) (regionId : String)
    (data : OceanStatusResponse) (t t' : ℤ) :
    (getCached regionId t (setCache regionId data t cache)).1 = some data
    ∧ (CACHE_TTL < t' - t →
        (getCached regionId t' (setCache regionId data t cache)).1 = none
        ∧ (getCached regionId t' (setCache regionId data t cache)).2 regionId = none) := by
  constructor
  · simp [getCached, setCache, CACHE_TTL]
  · intro h
    have hgt : t' - t > CACHE_TTL := by omega
    simp [getCached, setCache, hgt]

/-- An empty cache store. -/
def emptyCache : CacheMap := fun _ => none

/-- A structurally minimal response used to exercise the cache. -/
def dummyResponse : OceanStatusResponse :=
  { region := "Cabarete"
    timestamp := 0
    activities :=
      { snorkeling := { status := .good, reason := "" }
        kayaking := { status := .good, reason := "" }
        sup := { status := .good, reason := "" }
        fishing := { status := .good, reason := "" } } }

/-- Concrete run for C7: an entry inserted at t = 0 is gone when read 11
minutes later. -/
theorem cache_roundtrip_and_lazy_expiry_witness :
    CACHE_TTL < (660000 : ℤ) - 0 ∧
    (getCached "cabarete" 660000 (setCache "cabarete" dummyResponse 0 emptyCache)).1 = none :=
  ⟨by norm_num [CACHE_TTL],
    ((cache_roundtrip_and_lazy_expiry emptyCache "cabarete" dummyResponse 0 660000).2
      (by norm_num [CACHE_TTL])).1⟩

/-- `calculateWindow` never produces the empty string: its only non-absent
value starts with "Next ". -/
theorem calculateWindow_ne_some_empty (hf : Option (List HourlyForecast))
    (t : ActivityThresholds) (a b : Nat) :
    BaseRules.calculateWindow hf t a b ≠ some "" := by
  unfold BaseRules.calculateWindow
  cases hf with
  | none => exact fun h => nomatch h
  | some l =>
    dsimp only
    split_ifs with h1 h2
    · exact fun h => nomatch h
    · intro h
      have h2 := congrArg String.length (Option.some.inj h)
      simp [String.length_append] at h2
      exact absurd h2.1.1.1.1 (by decide)
    · exact fun h => nomatch h

/-- `w || fallback` always yields a value when the fallback is present. -/
theorem jsOrString_some_isSome (w : Option String) (d : String) :
    (jsOrString w (some d)).isSome = true := by
  cases w with
  | none => rfl
  | some s =>
    by_cases h : s = "" <;> simp [jsOrString, h]

/-- `w || undefined` is `w` itself when `w` is not the empty string. -/
theorem jsOrString_none_fallback (w : Option String) (hw : w ≠ some "") :
    jsOrString w none = w := by
  cases w with
  | none => rfl
  | some s =>
    have : s ≠ "" := fun h => hw (by rw [h])
    simp [jsOrString, this]

/-- C10: for each of the four activity evaluators, a "good" final status always
carries a window — with the activity-specific default substituted when
`calculateWindow` produced none — while a non-"good" status carries exactly
what `calculateWindow` produced. -/
theorem activity_window_presence (context : RuleContext) (now : ℤ) :
    (((evaluateSnorkeling context now).status = .good →
        (evaluateSnorkeling context now).window.isSome = true
        ∧ (BaseRules.calculateWindow context.hourlyForecast context.thresholds 0 6 = none →
            (evaluateSnorkeling context now).window = some "Next 4-6 hours"))
      ∧ ((evaluateSnorkeling context now).status ≠ .good →
        (evaluateSnorkeling context now).window =
          BaseRules.calculateWindow context.hourlyForecast context.thresholds 0 6))
    ∧ (((evaluateKayaking context).status = .good →
        (evaluateKayaking context).window.isSome = true
        ∧ (BaseRules.calculateWindow context.hourlyForecast context.thresholds 0 8 = none →
            (evaluateKayaking context).window = some "Next 6-8 hours"))
      ∧ ((evaluateKayaking context).status ≠ .good →
        (evaluateKayaking context).window =
          BaseRules.calculateWindow context.hourlyForecast context.thresholds 0 8))
    ∧ (((evaluateSUP context).status = .good →
        (evaluateSUP context).window.isSome = true
        ∧ (BaseRules.calculateWindow context.hourlyForecast context.thresholds 0 5 = none →
            (evaluateSUP context).window = some "Next 4-5 hours"))
      ∧ ((evaluateSUP context).status ≠ .good →
        (evaluateSUP context).window =
          BaseRules.calculateWindow context.hourlyForecast context.thresholds 0 5))
    ∧ (((evaluateFishing context now).status = .good →
        (evaluateFishing context now).window.isSome = true
        ∧ (BaseRules.calculateWindow context.hourlyForecast context.thresholds 0 4 = none →
            (evaluateFishing context now).window = some "Next 2-3 hours"))
      ∧ ((evaluateFishing context now).status ≠ .good →
        (evaluateFishing context now).window =
          BaseRules.calculateWindow context.hourlyForecast context.thresholds 0 4)) := by
  have key : ∀ (st : ActivityStatus) (cw : Option String) (d : String), cw ≠ some "" →
      ((st = .good →
        (jsOrString cw (if st = .good then some d else none)).isSome = true
        ∧ (cw = none → jsOrString cw (if st = .good then some d else none) = some d))
      ∧ (st ≠ .good →
        jsOrString cw (if st = .good then some d else none) = cw)) := by
    intro st cw d hcw
    constructor
    · intro hst
      rw [if_pos hst]
      exact ⟨jsOrString_some_isSome cw d, fun hnone => by rw [hnone]; rfl⟩
    · intro hst
      rw [if_neg hst]
      exact jsOrString_none_fallback cw hcw
  exact ⟨key _ _ _ (calculateWindow_ne_some_empty _ _ 0 6),
    key _ _ _ (calculateWindow_ne_some_empty _ _ 0 8),
    key _ _ _ (calculateWindow_ne_some_empty _ _ 0 5),
    key _ _ _ (calculateWindow_ne_some_empty _ _ 0 4)⟩

/-- A snorkeling context with fully favorable current conditions and no
forecast, used to exercise the window defaulting. -/
def snorkelWindowCtx : RuleContext :=
  { weather := { windSpeed := 2, cloudiness := 10, rain := 0, timestamp := 0 }
    tides := [⟨.low, 0.2, -3600000⟩]
    hourlyForecast := none
    thresholds := { maxWindSpeed := 6, maxCloudiness := 40, maxRain := 0.5,
                    preferredTide := some .low } }

/-- Concrete run for C10: a "good" snorkeling status with no usable forecast
receives the default window. -/
theorem activity_window_presence_witness :
    (evaluateSnorkeling snorkelWindowCtx 0).window = some "Next 4-6 hours" := by
  have hst : (evaluateSnorkeling snorkelWindowCtx 0).status = .good := by
    norm_num [evaluateSnorkeling, snorkelWindowCtx, snorkelFinalStatus,
      BaseRules.evaluateWind, BaseRules.evaluateCloudiness, BaseRules.evaluateRain,
      BaseRules.evaluateTide, List.find?]
    try decide
  exact ((activity_window_presence snorkelWindowCtx 0).1.1 hst).2 rfl
